import Mathlib

/-!
# Verification of the port-resolution library (get-port-please)

Shallow embedding of `src/get-port.ts`.  The socket probe (`_tryPort`, the
"attempt to bind a listening socket" primitive, declared out of scope by the
spec) is passed as a function parameter `t : Probe` mapping a requested port
and a host to the bound port on success, or `none` on bind failure.  JS values
of type `PortNumber | false | undefined` are embedded as `Option Nat`, with
`none` playing `false`/`undefined`.  Asynchrony is immaterial here (the source
awaits every probe sequentially), so the embedding is direct.

Helpers that live in `src/_internal.ts` and `src/unsafe-ports.ts` — files that
are not among the given sources — are modelled from the spec; each such
definition carries a doc comment starting with `Modelled from the spec:`.
-/

/-- A host address: `none` stands for the JS `undefined` ("default local
interface") value that the source passes around freely. -/
abbrev Host := Option String

/-- The socket-probe primitive `_tryPort(port, host)` of `src/_internal.ts`
(the spec's SocketProbe collaborator, §2): given a requested port and a host,
returns the bound port on success (meaningful for a requested port 0, where
the OS assigns an ephemeral port) or `none` (JS `false`) on bind failure. -/
abbrev Probe := Nat → Host → Option Nat

/-- JS truthiness of a `PortNumber | false | undefined` value as used by the
source's `if (!availablePort)` / `if (r) return r` tests: `0`, `false` and
`undefined` are all falsy. -/
def truthy : Option Nat → Bool
  | some q => q != 0
  | none => false

/-- Modelled from the spec: the deny-list behind `isSafePort` lives in
`src/unsafe-ports.ts`, which is not among the given sources.  Spec §4.1
describes a fixed deny-list of browser/OS-blocked ports, naming mail, RPC and
directory-service ports as examples; we take 25 (SMTP mail), 135 (MS-RPC) and
389 (LDAP directory service) as representative members. -/
def blockedPorts : List Nat := [25, 135, 389]

/-- Modelled from the spec (§4.1): `isSafePort` from `src/unsafe-ports.ts` is
membership outside the fixed deny-list; deterministic and pure, and port 0
passes the filter. -/
def isSafePort (port : Nat) : Bool := !(blockedPorts.contains port)

/-- Modelled from the spec (§4.2): `_generateRange` from `src/_internal.ts`.
An empty/unset range produces the empty sequence; a pair `[a, b]` produces
every integer from `a` to `b` inclusive, ascending, and in a shuffled order
when `random` is set.  The spec fixes only that the shuffled order is a
permutation, so the shuffle itself is abstracted as a function parameter
(for `a > b` the natural-subtraction length is 0, matching the caller-sane
assumption of §4.2). -/
def _generateRange (shuffle : List Nat → List Nat) (range : List Nat)
    (random : Bool) : List Nat :=
  match range with
  | [a, b] =>
    let asc := (List.range (b + 1 - a)).map (fun i => a + i)
    if random then shuffle asc else asc
  | _ => []

/-- Modelled from the spec (§4.5): the default local host-set used when no
host is given — "the local host-set (unspecified/default interface plus the
all-interfaces address)", i.e. the source's
`_getLocalHosts([undefined, "0.0.0.0"])`. -/
def _getLocalHosts : List Host := [none, some "0.0.0.0"]

/-- The `host` argument accepted by `checkPort`: a single address string or an
explicit list of addresses.  `missing` stands for an absent (or JS-falsy)
host for which the default local host-set is substituted; the `process.env.HOST`
default-parameter fallback, absent in every resolution relevant here, is folded
into `missing`. -/
inductive HostInput where
  | missing : HostInput
  | one : String → HostInput
  | many : List Host → HostInput

/-- How `getPort` / `getRandomPort` pass their single optional host on to
`checkPort`. -/
def hostInputOf : Host → HostInput
  | none => .missing
  | some h => .one h

/-- The per-host loop of `checkPort` (src/get-port.ts lines 149-165): probes
each address in order; any failure aborts with `none` (JS `false`); when the
requested port is 0, the port resolved by the first successful bind replaces 0
as the probe target for the remaining addresses. -/
def checkPortLoop (t : Probe) : Nat → List Host → Option Nat
  | port, [] => some port
  | port, h :: rest =>
    match t port h with
    | none => none
    | some q => checkPortLoop t (if port == 0 && q != 0 then q else port) rest

/-- `checkPort` (src/get-port.ts lines 137-166): with no usable host, probes
the default local host-set; with a single address, delegates directly to the
probe; with a list, runs the per-host loop.  The verbose privileged-port log
message has no behavioural effect and is omitted. -/
def checkPort (t : Probe) (port : Nat) (host : HostInput) : Option Nat :=
  match host with
  | .missing => checkPortLoop t port _getLocalHosts
  | .one h => if h == "" then checkPortLoop t port _getLocalHosts
              else t port (some h)
  | .many hs => checkPortLoop t port hs

/-- Modelled from the spec: `_fmtOnHost` from `src/_internal.ts` renders the
host portion of an error message.  The spec (§7) fixes only that messages
identify what was tried, so we render a present host as `on host <h>` and an
absent one as `on any host`. -/
def _fmtOnHost : Host → String
  | some h => if h = "" then "on any host" else "on host " ++ h
  | none => "on any host"

/-- `getRandomPort` (src/get-port.ts lines 110-118): probes port 0 against the
host; a probe failure becomes a thrown `GetPortError`, anything else is
returned as-is. -/
def getRandomPort (t : Probe) (host : Host) : Except String Nat :=
  match checkPort t 0 (hostInputOf host) with
  | none => .error ("Unable to find any random port " ++ _fmtOnHost host)
  | some port => .ok port

/-- Modelled from the spec (§4.3): `_findPort` (the spec's PortFinder) from
`src/_internal.ts`.  Iterates the candidates in order, returning the first for
which `checkPort` succeeds on all resolved host addresses, short-circuiting on
the first full success and yielding `none` when exhausted.  A `checkPort`
result of port 0 does not count as success (§3 fixes concrete successful
outcomes to [1, 65535]; 0 is JS-falsy). -/
def _findPort (t : Probe) (ports : List Nat) (host : Host) : Option Nat :=
  match ports with
  | [] => none
  | p :: rest =>
    match checkPort t p (hostInputOf host) with
    | some q => if q != 0 then some q else _findPort t rest host
    | none => _findPort t rest host

/-- Modelled from the JS runtime: `Number.parseInt` as applied by
src/get-port.ts line 26 to the bare number/string shorthand.  We model the
decimal grammar for nonnegative numerals — optional leading whitespace, an
optional plus sign, then the longest leading run of decimal digits — yielding
`none` (NaN) when that run is empty.  Negative numerals, which no claim
exercises and which can never denote a bindable port, are outside the model. -/
def jsParseInt (s : String) : Option Nat :=
  let cs := s.data.dropWhile (fun c => c == ' ' || c == '\t' || c == '\n' || c == '\r')
  let cs := match cs with
    | '+' :: rest => rest
    | other => other
  let digits := cs.takeWhile Char.isDigit
  if digits.isEmpty then none
  else some (digits.foldl (fun acc c => acc * 10 + (c.toNat - '0'.toNat)) 0)

/-- The object form of `GetPortInput` (its declaration lives in
`src/types.ts`, not among the given sources; the fields are the ones read by
`src/get-port.ts` and listed in spec §6).  `none` marks an absent field. -/
structure GetPortOptionsIn where
  port : Option Nat := none
  ports : List Nat := []
  portRange : List Nat := []
  alternativePortRange : Option (List Nat) := none
  random : Option Bool := none
  host : Option String := none
  publicHost : Option Bool := none
  verbose : Bool := false
  name : String := "default"

/-- `GetPortInput`: `getPort` also accepts a bare number or numeric-string
shorthand (src/get-port.ts lines 25-27, spec §6). -/
inductive GetPortInput where
  | num : Nat → GetPortInput
  | str : String → GetPortInput
  | opts : GetPortOptionsIn → GetPortInput

/-- The shorthand normalisation of src/get-port.ts lines 25-27:
`{ port: Number.parseInt(_userOptions + "") || 0 }`.  For a bare number `n`
the round-trip through its decimal string is `n` itself; `|| 0` coerces NaN
(and 0) to 0. -/
def normalizeInput : GetPortInput → GetPortOptionsIn
  | .num n => { port := some n }
  | .str s => { port := some ((jsParseInt s).getD 0) }
  | .opts o => o

/-- The process environment read by `getPort`: `process.env.PORT` (already
taken through JS `Number`, abstracted to its numeric value) and
`process.env.HOST`. -/
structure ProcEnv where
  port : Option Nat := none
  host : Option String := none

/-- JS nullish coalescing `a ?? b` on optional values. -/
def nullishOr {α : Type} (a b : Option α) : Option α :=
  match a with
  | some v => some v
  | none => b

/-- Modelled from the spec: `_validateHostname` from `src/_internal.ts`.  The
spec treats hostname validation/resolution as an out-of-scope collaborator
(§1, §6), so it is modelled as passing the hostname through unchanged; no
claim depends on its content. -/
def _validateHostname (hostname : Host) (_pub : Option Bool)
    (_verbose : Bool) : Host :=
  hostname

/-- `const _port = Number(_userOptions.port ?? process.env.PORT ?? 3000)`
(src/get-port.ts line 29). -/
def resolvedPort (env : ProcEnv) (u : GetPortOptionsIn) : Nat :=
  (nullishOr u.port env.port).getD 3000

/-- The resolved `random` option: `random: _port === 0` as the default,
overridden by the user's own `random` via object spread
(src/get-port.ts lines 31-44). -/
def resolvedRandom (env : ProcEnv) (u : GetPortOptionsIn) : Bool :=
  u.random.getD (resolvedPort env u == 0)

/-- The default for `alternativePortRange`:
`_userOptions.port ? [] : [3000, 3100]` (src/get-port.ts line 36) — JS
truthiness, so both an absent `port` and an explicit `port: 0` select
`[3000, 3100]`. -/
def defaultAlternativeRange (userPort : Option Nat) : List Nat :=
  match userPort with
  | some p => if p != 0 then [] else [3000, 3100]
  | none => [3000, 3100]

/-- The resolved `alternativePortRange`: the user's own, else the default. -/
def resolvedAltRange (u : GetPortOptionsIn) : List Nat :=
  u.alternativePortRange.getD (defaultAlternativeRange u.port)

/-- The resolved `host`:
`_validateHostname(_userOptions.host ?? process.env.HOST, public, verbose)`
(src/get-port.ts lines 39-43). -/
def resolvedHost (env : ProcEnv) (u : GetPortOptionsIn) : Host :=
  _validateHostname (nullishOr u.host env.host) u.publicHost u.verbose

/-- The candidate list built by `getPort` (src/get-port.ts lines 52-64): the
explicit port and extra ports (omitted in random mode) followed by the primary
range expansion (shuffled in random mode), filtered by the falsy-port and
safe-port tests. -/
def portsToCheck (shuffle : List Nat → List Nat) (env : ProcEnv)
    (u : GetPortOptionsIn) : List Nat :=
  ((if resolvedRandom env u then [] else resolvedPort env u :: u.ports) ++
      _generateRange shuffle u.portRange (resolvedRandom env u)).filter
    (fun port => port != 0 && isSafePort port)

/-- Stage 2 of the cascade: `await _findPort(portsToCheck, options.host)`
(src/get-port.ts line 67). -/
def primaryAvail (t : Probe) (shuffle : List Nat → List Nat) (env : ProcEnv)
    (u : GetPortOptionsIn) : Option Nat :=
  _findPort t (portsToCheck shuffle env u) (resolvedHost env u)

/-- `availablePort` after the alternative-range fallback (src/get-port.ts
lines 70-82): when the primary stage yielded nothing truthy and an
alternative range is configured, its ascending, *unfiltered* expansion is
searched instead. -/
def availAfterAlt (t : Probe) (shuffle : List Nat → List Nat) (env : ProcEnv)
    (u : GetPortOptionsIn) : Option Nat :=
  let a := primaryAvail t shuffle env u
  if !truthy a && 0 < (resolvedAltRange u).length then
    _findPort t (_generateRange shuffle (resolvedAltRange u) false)
      (resolvedHost env u)
  else a

/-- JS `arr.join("-")` over port numbers, as used for the tried-ranges error
message (src/get-port.ts lines 94-99). -/
def _joinDash : List Nat → String
  | [] => ""
  | [a] => toString a
  | a :: rest => toString a ++ "-" ++ _joinDash rest

/-- The components of the tried-ranges enumeration:
`[options.port, portRange.join("-"), alternativePortRange.join("-")].filter(Boolean)`
(src/get-port.ts lines 93-100) — the port number is dropped when 0, the joined
range strings when empty. -/
def triedRangesList (port : Nat) (pr ar : List Nat) : List String :=
  (if port != 0 then [toString port] else []) ++
    ([_joinDash pr, _joinDash ar].filter (fun s => s != ""))

/-- `triedRanges` joined with `", "` (src/get-port.ts line 100). -/
def triedRanges (port : Nat) (pr ar : List Nat) : String :=
  String.intercalate ", " (triedRangesList port pr ar)

/-- The resolution-exhausted error message (src/get-port.ts lines 101-105;
the doubled "find find" is verbatim from the source). -/
def exhaustedMsg (host : Host) (port : Nat) (pr ar : List Nat) : String :=
  "Unable to find find available port " ++ _fmtOnHost host ++
    " (tried " ++ triedRanges port pr ar ++ ")"

/-- The body of `getPort` after option resolution (src/get-port.ts lines
46-107): the direct random path, then the primary and alternative stages, then
the random fallback guarded by `_userOptions.random !== false` (whose failure
propagates `getRandomPort`'s own error), then the exhausted error. -/
def getPortWith (t : Probe) (shuffle : List Nat → List Nat) (env : ProcEnv)
    (u : GetPortOptionsIn) : Except String Nat :=
  if resolvedRandom env u && u.portRange.length == 0 then
    getRandomPort t (resolvedHost env u)
  else
    let availablePort := availAfterAlt t shuffle env u
    if truthy availablePort then .ok (availablePort.getD 0)
    else if u.random != some false then
      (getRandomPort t (resolvedHost env u)).bind (fun p =>
        if p != 0 then .ok p
        else .error (exhaustedMsg (resolvedHost env u) (resolvedPort env u)
          u.portRange (resolvedAltRange u)))
    else
      .error (exhaustedMsg (resolvedHost env u) (resolvedPort env u)
        u.portRange (resolvedAltRange u))

/-- `getPort` (src/get-port.ts lines 22-108), over the probe, the
range-shuffle, the process environment and the user's input. -/
def getPort (t : Probe) (shuffle : List Nat → List Nat) (env : ProcEnv)
    (input : GetPortInput) : Except String Nat :=
  getPortWith t shuffle env (normalizeInput input)

/-- JS `x || d` defaulting on an optional number: both an absent and a zero
value select the default (src/get-port.ts lines 124-125). -/
def jsOrNum (x : Option Nat) (d : Nat) : Nat :=
  match x with
  | some v => if v == 0 then d else v
  | none => d

/-- `WaitForPortOptions` (fields read by `waitForPort`). -/
structure WaitForPortOptions where
  delay : Option Nat := none
  retries : Option Nat := none
  host : Option String := none

/-- The timeout message of `waitForPort` (src/get-port.ts lines 132-134). -/
def timeoutMsg (port retries delay : Nat) : String :=
  "Timeout waiting for port " ++ toString port ++ " after " ++
    toString retries ++ " retries with " ++ toString delay ++ "ms interval."

/-- The retry loop of `waitForPort` (src/get-port.ts lines 126-134).
`probeAt k` is the result of the k-th `_tryPort(port, options.host)` call
(the probe's answer may change over time as the awaited service starts).
The second component of the result counts the milliseconds spent sleeping:
each probe that reports the port still bindable is followed by one sleep of
`delay` ms; a probe reporting the port occupied returns at once. -/
def waitForPortAux (probeAt : Nat → Option Nat) (port delay retries : Nat) :
    Nat → Nat → Nat → Except String Unit × Nat
  | 0, _attempt, slept => (.error (timeoutMsg port retries delay), slept)
  | index + 1, attempt, slept =>
    match probeAt attempt with
    | none => (.ok (), slept)
    | some _ => waitForPortAux probeAt port delay retries index (attempt + 1)
        (slept + delay)

/-- `waitForPort` (src/get-port.ts lines 120-135): resolves
`options.delay || 500` and `options.retries || 4`, then runs the retry loop.
Returns the outcome paired with the total milliseconds slept. -/
def waitForPort (probeAt : Nat → Option Nat) (port : Nat)
    (o : WaitForPortOptions) : Except String Unit × Nat :=
  waitForPortAux probeAt port (jsOrNum o.delay 500) (jsOrNum o.retries 4)
    (jsOrNum o.retries 4) 0 0

/-! ### Concrete probe fixtures used by witnesses and counterexamples -/

/-- A probe for which every bind attempt succeeds at the requested port. -/
def probeEcho : Probe := fun p _ => some p

/-- A probe for which every bind attempt fails. -/
def probeFail : Probe := fun _ _ => none

/-- A probe that answers an OS-assigned 50000 for port 0 and echoes any other
requested port. -/
def probeOsAssign : Probe := fun p _ => if p == 0 then some 50000 else some p

/-- A probe on which only port 0 (resolving to 48000) and port 48000 itself
are bindable. -/
def probeOnly48000 : Probe := fun p _ =>
  if p == 0 || p == 48000 then some 48000 else none

/-- A well-behaved probe: port 0 resolves to 50000, other in-range ports bind
at themselves, out-of-range ports never bind. -/
def probeSane : Probe := fun p _ =>
  if p == 0 then some 50000 else if p ≤ 65535 then some p else none

/-- A probe that always reports the bound port 41000. -/
def probeConst41000 : Probe := fun _ _ => some 41000

/-- A two-interface probe: binding port 0 resolves to 40000 everywhere except
on `::1`, where the port-0 probe fails; fixed ports always bind. -/
def probeDual : Probe := fun p h =>
  if h == some "::1" && p == 0 then none
  else some (if p == 0 then 40000 else p)

/-- A time-indexed wait probe: the port becomes occupied at the second
attempt (index 1). -/
def waitProbeOccupiedAt1 : Nat → Option Nat := fun k =>
  if k == 1 then none else some 1

/-- A time-indexed wait probe for a port that stays bindable (free) forever. -/
def waitProbeFree : Nat → Option Nat := fun _ => some 1

/-! ### Helper lemmas -/

/-- For a nonzero requested port the per-host loop never changes its probe
target: it succeeds with exactly the requested port iff every probe answers,
and fails otherwise. -/
theorem checkPortLoop_fixed (t : Probe) (p : Nat) (hp : p ≠ 0) :
    ∀ hs : List Host, checkPortLoop t p hs =
      if hs.all (fun h => (t p h).isSome) then some p else none := by
  intro hs
  induction hs with
  | nil => simp [checkPortLoop]
  | cons h rest ih =>
    have hb : (p == 0) = false := by simpa using hp
    cases ht : t p h with
    | none => simp [checkPortLoop, ht]
    | some q => simp [checkPortLoop, ht, hb, ih]

/-- For a nonzero requested port, a successful per-host loop returns exactly
the requested port. -/
theorem checkPortLoop_ne_zero (t : Probe) (p : Nat) (hp : p ≠ 0)
    (hs : List Host) (q : Nat) (h : checkPortLoop t p hs = some q) : q = p := by
  rw [checkPortLoop_fixed t p hp hs] at h
  by_cases hall : hs.all (fun h => (t p h).isSome)
  · rw [if_pos hall] at h
    exact (Option.some_inj.mp h).symm
  · rw [if_neg hall] at h
    exact absurd h (by simp)

/-! ### C10: checkPort on an explicitly empty host list -/

/-- C10: for every probe and every port `p`, `checkPort(p, [])` returns `p`
itself — including `0` when `p = 0` — because the per-host loop body is never
entered.  The result is independent of the probe (it is the same for every
`t`), which is the embedding's rendering of "no probe is performed". -/
theorem checkPort_empty_host_list (t : Probe) (p : Nat) :
    checkPort t p (.many []) = some p := rfl

/-! ### C2: checkPort over a list of host addresses -/

/-- C2: probing a list of addresses never partially succeeds.  For a fixed
nonzero port the check returns `false` (`none`) as soon as any address fails
and the requested port `p` otherwise; for port 0 the port `q` resolved by the
first successful bind becomes the fixed probe target for every remaining
address, so the returned port is the same concrete `q` validated on all of
them (the hypothesis `q ≠ 0` is the SocketProbe contract of spec §2: a
successful bind of port 0 reports the concrete OS-assigned port). -/
theorem checkPort_multi_host (t : Probe) (p : Nat) (hs : List Host) :
    (p ≠ 0 → checkPort t p (.many hs) =
      if hs.all (fun h => (t p h).isSome) then some p else none) ∧
    (∀ h rest q, hs = h :: rest → p = 0 → t 0 h = some q → q ≠ 0 →
      checkPort t p (.many hs) =
        if rest.all (fun h2 => (t q h2).isSome) then some q else none) := by
  constructor
  · intro hp
    simpa [checkPort] using checkPortLoop_fixed t p hp hs
  · rintro h rest q rfl rfl hq hq0
    have hb : (q != 0) = true := by simpa using hq0
    simp only [checkPort, checkPortLoop, hq, hb]
    simpa using checkPortLoop_fixed t q hq0 rest

/-- Witness for C2 at a concrete two-interface probe: probing port 0 against
`["127.0.0.1", "::1"]` resolves to 40000 on the first address and revalidates
exactly 40000 on the second. -/
theorem checkPort_multi_host_witness :
    checkPort probeDual 0 (.many [some "127.0.0.1", some "::1"]) = some 40000 := by
  have h := (checkPort_multi_host probeDual 0 [some "127.0.0.1", some "::1"]).2
    (some "127.0.0.1") [some "::1"] 40000 rfl rfl (by decide) (by decide)
  exact h.trans (by decide)

/-! ### C3: waitForPort retry loop -/

/-- If every probe in the remaining window reports the port still bindable,
the retry loop exhausts its budget, sleeping once per probe. -/
theorem waitForPortAux_all_bindable (probeAt : Nat → Option Nat)
    (port delay retries : Nat) :
    ∀ index attempt slept,
      (∀ j, attempt ≤ j → j < attempt + index → probeAt j ≠ none) →
      waitForPortAux probeAt port delay retries index attempt slept =
        (.error (timeoutMsg port retries delay), slept + index * delay) := by
  intro index
  induction index with
  | zero => intro attempt slept _; simp [waitForPortAux]
  | succ n ih =>
    intro attempt slept hall
    have h1 : probeAt attempt ≠ none := hall attempt (Nat.le_refl _) (by omega)
    cases hp : probeAt attempt with
    | none => exact absurd hp h1
    | some q =>
      simp only [waitForPortAux, hp]
      rw [ih (attempt + 1) (slept + delay)
        (fun j hj1 hj2 => hall j (by omega) (by omega))]
      have harith : slept + delay + n * delay = slept + (n + 1) * delay := by ring
      rw [harith]

/-- If the first occupied-probe within the window is at attempt `k`, the loop
returns successfully right after that probe, having slept once per earlier
probe. -/
theorem waitForPortAux_first_occupied (probeAt : Nat → Option Nat)
    (port delay retries : Nat) :
    ∀ index attempt slept k, probeAt k = none →
      (∀ j, attempt ≤ j → j < k → probeAt j ≠ none) →
      attempt ≤ k → k < attempt + index →
      waitForPortAux probeAt port delay retries index attempt slept =
        (.ok (), slept + (k - attempt) * delay) := by
  intro index
  induction index with
  | zero => intro attempt slept k _ _ h1 h2; omega
  | succ n ih =>
    intro attempt slept k hk hprev h1 h2
    by_cases he : attempt = k
    · subst he
      simp [waitForPortAux, hk]
    · have hlt : attempt < k := Nat.lt_of_le_of_ne h1 he
      have hne : probeAt attempt ≠ none := hprev attempt (Nat.le_refl _) hlt
      cases hp : probeAt attempt with
      | none => exact absurd hp hne
      | some q =>
        simp only [waitForPortAux, hp]
        rw [ih (attempt + 1) (slept + delay) k hk
          (fun j a b => hprev j (by omega) b) (by omega) (by omega)]
        have h3 : k - attempt = (k - (attempt + 1)) + 1 := by omega
        rw [h3]
        have harith : slept + delay + (k - (attempt + 1)) * delay =
            slept + ((k - (attempt + 1)) + 1) * delay := by ring
        rw [harith]

/-- C3 (amended: positive delay and retry budget, since the source resolves
`options.delay || 500` and `options.retries || 4`, so the values 0 select the
defaults): `waitForPort(p, {delay: d, retries: r})` returns successfully,
without sleeping further, as soon as a probe reports the port occupied (`k`
earlier free-probes mean exactly `k` sleeps, `k * d` ms); if all `r` probes
report the port bindable it throws the timeout error naming the port, the
retry count and the delay, after exactly `r` probes each followed by a sleep
of `d` ms (`r * d` ms in total). -/
theorem waitForPort_spec (probeAt : Nat → Option Nat) (p d r : Nat)
    (hd : 0 < d) (hr : 0 < r) :
    (∀ k, k < r → probeAt k = none → (∀ j, j < k → probeAt j ≠ none) →
      waitForPort probeAt p ⟨some d, some r, none⟩ = (.ok (), k * d)) ∧
    ((∀ k, k < r → probeAt k ≠ none) →
      waitForPort probeAt p ⟨some d, some r, none⟩ =
        (.error (timeoutMsg p r d), r * d)) := by
  have hdd : jsOrNum (some d) 500 = d := by
    have : (d == 0) = false := by simpa using Nat.pos_iff_ne_zero.mp hd
    simp [jsOrNum, this]
  have hrr : jsOrNum (some r) 4 = r := by
    have : (r == 0) = false := by simpa using Nat.pos_iff_ne_zero.mp hr
    simp [jsOrNum, this]
  constructor
  · intro k hk hkocc hprev
    show waitForPortAux probeAt p (jsOrNum (some d) 500) (jsOrNum (some r) 4)
      (jsOrNum (some r) 4) 0 0 = _
    rw [hdd, hrr]
    rw [waitForPortAux_first_occupied probeAt p d r r 0 0 k hkocc
      (fun j _ hj => hprev j hj) (Nat.zero_le _) (by omega)]
    simp
  · intro hall
    show waitForPortAux probeAt p (jsOrNum (some d) 500) (jsOrNum (some r) 4)
      (jsOrNum (some r) 4) 0 0 = _
    rw [hdd, hrr]
    rw [waitForPortAux_all_bindable probeAt p d r r 0 0
      (fun j _ hj => hall j (by omega))]
    simp

/-- Witness for C3 (amended) matching the spec's own example shape: with the
port becoming occupied at the second probe, `{delay: 10, retries: 2}` returns
successfully after a single 10 ms sleep. -/
theorem waitForPort_spec_witness :
    waitForPort waitProbeOccupiedAt1 8080 ⟨some 10, some 2, none⟩ =
      (.ok (), 10) := by
  have h := (waitForPort_spec waitProbeOccupiedAt1 8080 10 2 (by decide)
      (by decide)).1 1 (by decide) (by decide)
      (fun j hj => by interval_cases j; decide)
  exact h.trans rfl

/-- Counterexample for C3 as stated: the claim quantifies over *every* retry
budget `r`, but for `r = 0` the source's `options.retries || 4` falls back to
the default, so against an always-free port `waitForPort(3000, {delay: 10,
retries: 0})` performs 4 probes and 4 sleeps (40 ms, not `0 * 10 = 0`) and its
timeout message names 4 retries rather than the requested 0. -/
theorem waitForPort_retries_zero_cx :
    waitForPort waitProbeFree 3000 ⟨some 10, some 0, none⟩ =
      (.error (timeoutMsg 3000 4 10), 40) ∧
    timeoutMsg 3000 4 10 ≠ timeoutMsg 3000 0 10 ∧ (40 : Nat) ≠ 0 * 10 := by
  refine ⟨rfl, by decide, by decide⟩

/-! ### C4: the primary-stage candidate sequence -/

/-- C4: the primary candidate batch is the explicit requested port followed by
the explicit extra ports (both omitted in pure-random mode) followed by the
primary-range expansion (shuffled exactly when randomness is resolved), with
every falsy port dropped — in particular 0 is never a member of the batch. -/
theorem portsToCheck_spec (shuffle : List Nat → List Nat) (env : ProcEnv)
    (u : GetPortOptionsIn) :
    0 ∉ portsToCheck shuffle env u ∧
    (resolvedRandom env u = false →
      portsToCheck shuffle env u =
        (resolvedPort env u ::
            (u.ports ++ _generateRange shuffle u.portRange false)).filter
          (fun port => port != 0 && isSafePort port)) ∧
    (resolvedRandom env u = true →
      portsToCheck shuffle env u =
        (_generateRange shuffle u.portRange true).filter
          (fun port => port != 0 && isSafePort port)) := by
  refine ⟨?_, ?_, ?_⟩
  · intro hmem
    rw [portsToCheck, List.mem_filter] at hmem
    simpa using hmem.2
  · intro hr
    simp [portsToCheck, hr]
  · intro hr
    simp [portsToCheck, hr]

/-- Witness for C4 at the concrete request `{port: 3000}`: the batch is the
filter applied to `3000 :: []  ++ []` and does not contain 0. -/
theorem portsToCheck_spec_witness :
    0 ∉ portsToCheck id {} ({ port := some 3000 } : GetPortOptionsIn) ∧
    portsToCheck id {} ({ port := some 3000 } : GetPortOptionsIn) =
      (resolvedPort {} ({ port := some 3000 } : GetPortOptionsIn) ::
          (([] : List Nat) ++ _generateRange id [] false)).filter
        (fun port => port != 0 && isSafePort port) :=
  ⟨(portsToCheck_spec id {} ({ port := some 3000 } : GetPortOptionsIn)).1,
    (portsToCheck_spec id {} ({ port := some 3000 } : GetPortOptionsIn)).2.1 (by decide)⟩

/-! ### C1: safe-port filtering across the cascade -/

/-- C1 (amended): safe-port filtering covers the explicit port, the explicit
extra list and the primary range — every member of the primary candidate
batch is safe (and nonzero) — but, as the counterexample shows, it does *not*
cover the alternative range, whose expansion is handed to the port finder
unfiltered. -/
theorem primary_candidates_safe (shuffle : List Nat → List Nat) (env : ProcEnv)
    (u : GetPortOptionsIn) (p : Nat) (hp : p ∈ portsToCheck shuffle env u) :
    isSafePort p = true ∧ p ≠ 0 := by
  rw [portsToCheck, List.mem_filter] at hp
  have h2 := hp.2
  simp only [Bool.and_eq_true, bne_iff_ne, ne_eq] at h2
  exact ⟨h2.2, h2.1⟩

/-- Witness for C1 (amended): 3000 is in the primary batch of `{port: 3000}`
and is indeed safe and nonzero. -/
theorem primary_candidates_safe_witness :
    3000 ∈ portsToCheck id {} ({ port := some 3000 } : GetPortOptionsIn) ∧
    (isSafePort 3000 = true ∧ 3000 ≠ 0) :=
  ⟨by decide,
    primary_candidates_safe id {} ({ port := some 3000 } : GetPortOptionsIn) 3000 (by decide)⟩

/-- Counterexample for C1 as stated: with the unsafe port 25 (on the modelled
deny-list) as the alternative range, and every bind succeeding, `getPort`
returns 25 — the unsafe candidate from the alternative-range stage reached the
probe stage (and even the outcome) without being dropped. -/
theorem alt_range_not_safe_filtered_cx :
    getPort probeEcho id {}
        (.opts ({ port := some 25, alternativePortRange := some [25, 25] } : GetPortOptionsIn)) =
      .ok 25 ∧ isSafePort 25 = false :=
  ⟨rfl, rfl⟩

/-! ### Stage lemmas for the getPort cascade -/

/-- When the resolved random flag is set and no primary range was given,
`getPort` short-circuits to `getRandomPort` (src/get-port.ts lines 46-48). -/
theorem getPortWith_direct_eq (t : Probe) (shuffle : List Nat → List Nat)
    (env : ProcEnv) (u : GetPortOptionsIn)
    (h : (resolvedRandom env u && u.portRange.length == 0) = true) :
    getPortWith t shuffle env u = getRandomPort t (resolvedHost env u) := by
  simp [getPortWith, h]

/-- When the direct path is not taken and a candidate stage produced a truthy
port, that port is the outcome. -/
theorem getPortWith_stage_ok (t : Probe) (shuffle : List Nat → List Nat)
    (env : ProcEnv) (u : GetPortOptionsIn)
    (hD : (resolvedRandom env u && u.portRange.length == 0) = false)
    (hA : truthy (availAfterAlt t shuffle env u) = true) :
    getPortWith t shuffle env u = .ok ((availAfterAlt t shuffle env u).getD 0) := by
  simp [getPortWith, hD, hA]

/-- When both candidate stages produced nothing truthy and the caller
explicitly disabled randomness, `getPort` throws the tried-ranges error. -/
theorem getPortWith_exhausted (t : Probe) (shuffle : List Nat → List Nat)
    (env : ProcEnv) (u : GetPortOptionsIn)
    (hD : (resolvedRandom env u && u.portRange.length == 0) = false)
    (hA : truthy (availAfterAlt t shuffle env u) = false)
    (hR : u.random = some false) :
    getPortWith t shuffle env u =
      .error (exhaustedMsg (resolvedHost env u) (resolvedPort env u)
        u.portRange (resolvedAltRange u)) := by
  simp [getPortWith, hD, hA, hR]

/-- When both candidate stages produced nothing truthy and randomness was not
explicitly disabled, `getPort` defers to the random fallback. -/
theorem getPortWith_fallback (t : Probe) (shuffle : List Nat → List Nat)
    (env : ProcEnv) (u : GetPortOptionsIn)
    (hD : (resolvedRandom env u && u.portRange.length == 0) = false)
    (hA : truthy (availAfterAlt t shuffle env u) = false)
    (hR : u.random ≠ some false) :
    getPortWith t shuffle env u =
      (getRandomPort t (resolvedHost env u)).bind (fun p =>
        if p != 0 then .ok p
        else .error (exhaustedMsg (resolvedHost env u) (resolvedPort env u)
          u.portRange (resolvedAltRange u))) := by
  have hR2 : (u.random != some false) = true := by simpa [bne_iff_ne] using hR
  simp [getPortWith, hD, hA, hR2]

/-! ### C6: the direct random path -/

/-- C6 (amended: the governing condition is the *resolved* random flag — the
caller's `random` option, defaulting to `port == 0` only when `random` is
absent — not "random is true or the resolved port is 0"): with the resolved
flag set and no primary range, `getPort` skips every candidate stage and goes
straight to OS-assigned ephemeral assignment via `getRandomPort`. -/
theorem direct_random_path (t : Probe) (shuffle : List Nat → List Nat)
    (env : ProcEnv) (u : GetPortOptionsIn)
    (h1 : resolvedRandom env u = true) (h2 : u.portRange = []) :
    getPortWith t shuffle env u = getRandomPort t (resolvedHost env u) :=
  getPortWith_direct_eq t shuffle env u (by simp [h1, h2])

/-- Witness for C6 (amended) at `{random: true}`. -/
theorem direct_random_path_witness :
    getPortWith probeOsAssign id {} ({ random := some true } : GetPortOptionsIn) =
      getRandomPort probeOsAssign
        (resolvedHost {} ({ random := some true } : GetPortOptionsIn)) :=
  direct_random_path probeOsAssign id {} ({ random := some true } : GetPortOptionsIn)
    (by decide) rfl

/-- Counterexample for C6 as stated: for `{port: 0, random: false}` the
resolved requested port is 0 and no primary range is given, yet `getPort` does
*not* skip to ephemeral assignment — the explicit `random: false` wins, the
default alternative range [3000, 3100] is probed, and the outcome is 3000
while `getRandomPort` would have yielded the OS-assigned 50000. -/
theorem direct_random_claim_cx :
    getPort probeOsAssign id {}
        (.opts ({ port := some 0, random := some false } : GetPortOptionsIn)) =
      .ok 3000 ∧
    getRandomPort probeOsAssign
        (resolvedHost {} ({ port := some 0, random := some false } : GetPortOptionsIn)) =
      .ok 50000 ∧
    (3000 : Nat) ≠ 50000 :=
  ⟨rfl, rfl, by decide⟩

/-! ### C5: the random fallback stage -/

/-- C5: the random fallback (a probe with port 0 for an OS-assigned ephemeral
port) is attempted exactly when the preceding stages produced no truthy port
and the caller did not explicitly set `random: false`; when it resolves a
port, that value is the outcome of `getPort`.  Conjuncts: (1) a truthy
candidate-stage result is returned as-is (no fallback); (2) with both stages
empty and `random` not explicitly `false`, a successful `getRandomPort`
resolution is the outcome and a failing one propagates its error (the
fallback ran); (3) with `random: false` the outcome is the exhausted error,
whatever the probe would say for port 0 (the fallback did not run); (4) on
the direct path — both stages vacuously empty and `random` resolved true —
the outcome is again `getRandomPort`'s. -/
theorem random_fallback_spec (t : Probe) (shuffle : List Nat → List Nat)
    (env : ProcEnv) (u : GetPortOptionsIn) :
    ((resolvedRandom env u && u.portRange.length == 0) = false →
      (truthy (availAfterAlt t shuffle env u) = true →
        getPortWith t shuffle env u =
          .ok ((availAfterAlt t shuffle env u).getD 0)) ∧
      (truthy (availAfterAlt t shuffle env u) = false →
        (u.random ≠ some false →
          (∀ q, getRandomPort t (resolvedHost env u) = .ok q → q ≠ 0 →
            getPortWith t shuffle env u = .ok q) ∧
          (∀ e, getRandomPort t (resolvedHost env u) = .error e →
            getPortWith t shuffle env u = .error e)) ∧
        (u.random = some false →
          getPortWith t shuffle env u =
            .error (exhaustedMsg (resolvedHost env u) (resolvedPort env u)
              u.portRange (resolvedAltRange u))))) ∧
    ((resolvedRandom env u && u.portRange.length == 0) = true →
      getPortWith t shuffle env u = getRandomPort t (resolvedHost env u)) := by
  constructor
  · intro hD
    refine ⟨getPortWith_stage_ok t shuffle env u hD, ?_⟩
    intro hA
    constructor
    · intro hR
      constructor
      · intro q hq hq0
        rw [getPortWith_fallback t shuffle env u hD hA hR, hq]
        have hb : (q != 0) = true := by simpa using hq0
        simp [Except.bind, hb]
      · intro e he
        rw [getPortWith_fallback t shuffle env u hD hA hR, he]
        rfl
    · exact getPortWith_exhausted t shuffle env u hD hA
  · exact getPortWith_direct_eq t shuffle env u

/-- Witness for C5: with `{port: 4000}` on a probe where 4000 is occupied
(and the user pinned port makes the default alternative range empty), the
fallback runs — `random` was never requested — and its resolution 48000 is
the outcome. -/
theorem random_fallback_spec_witness :
    getPortWith probeOnly48000 id {} ({ port := some 4000 } : GetPortOptionsIn) =
      .ok 48000 :=
  ((((random_fallback_spec probeOnly48000 id {}
      ({ port := some 4000 } : GetPortOptionsIn)).1 (by decide)).2
      (by decide)).1 (by decide)).1 48000 rfl (by decide)

/-! ### String facts for the tried-ranges enumeration -/

/-- `Nat.toDigitsCore` never erases an already-nonempty accumulator. -/
theorem toDigitsCore_ne_nil_of_ne_nil (b : Nat) :
    ∀ (f n : Nat) (ds : List Char), ds ≠ [] → Nat.toDigitsCore b f n ds ≠ [] := by
  intro f
  induction f with
  | zero => intro n ds h; simpa [Nat.toDigitsCore] using h
  | succ f ih =>
    intro n ds h
    simp only [Nat.toDigitsCore]
    split
    · exact List.cons_ne_nil _ _
    · exact ih _ _ (List.cons_ne_nil _ _)

/-- The decimal digit list of a natural number is nonempty. -/
theorem toDigits_ne_nil (b n : Nat) : Nat.toDigits b n ≠ [] := by
  show Nat.toDigitsCore b (n + 1) n [] ≠ []
  simp only [Nat.toDigitsCore]
  split
  · exact List.cons_ne_nil _ _
  · exact toDigitsCore_ne_nil_of_ne_nil b _ _ _ (List.cons_ne_nil _ _)

/-- The decimal string of a natural number is nonempty. -/
theorem natToString_ne_empty (n : Nat) : toString n ≠ "" := by
  show Nat.repr n ≠ ""
  rw [Nat.repr]
  intro h
  have hd := congrArg String.data h
  simp only [List.asString] at hd
  exact toDigits_ne_nil 10 n hd

/-- Appending cannot erase a nonempty string. -/
theorem string_append_ne_empty_left (s t : String) (h : s ≠ "") :
    s ++ t ≠ "" := by
  intro he
  have hd := congrArg String.data he
  rw [String.data_append] at hd
  have h2 : s.data = [] := (List.append_eq_nil.mp hd).1
  apply h
  cases s with
  | mk d =>
    cases h2
    rfl

/-- The dash-joined rendering of a nonempty port list is a nonempty string. -/
theorem _joinDash_ne_empty (a : Nat) (l : List Nat) : _joinDash (a :: l) ≠ "" := by
  cases l with
  | nil => simpa [_joinDash] using natToString_ne_empty a
  | cons b r =>
    show toString a ++ "-" ++ _joinDash (b :: r) ≠ ""
    exact string_append_ne_empty_left _ _
      (string_append_ne_empty_left _ _ (natToString_ne_empty a))

/-! ### C7: the resolution-exhausted error -/

/-- C7 (amended: the enumerating tried-ranges error is thrown only when the
random fallback is also disabled by an explicit `random: false`; when the
fallback runs and fails, `getRandomPort`'s own non-enumerating error
propagates instead — see the counterexample): when no candidate stage
produced a port and `random: false`, `getPort` throws the error built from
`triedRanges`, whose component list enumerates exactly the non-falsy items
among the explicit requested port, the primary range and the alternative
range; and no error is thrown when a stage succeeds. -/
theorem exhausted_error_spec (t : Probe) (shuffle : List Nat → List Nat)
    (env : ProcEnv) (u : GetPortOptionsIn)
    (hD : (resolvedRandom env u && u.portRange.length == 0) = false) :
    (truthy (availAfterAlt t shuffle env u) = true →
      getPortWith t shuffle env u =
        .ok ((availAfterAlt t shuffle env u).getD 0)) ∧
    (truthy (availAfterAlt t shuffle env u) = false → u.random = some false →
      getPortWith t shuffle env u =
        .error (exhaustedMsg (resolvedHost env u) (resolvedPort env u)
          u.portRange (resolvedAltRange u))) ∧
    (∀ port pr ar, triedRangesList port pr ar =
      (if port ≠ 0 then [toString port] else []) ++
        ((if pr = [] then [] else [_joinDash pr]) ++
          (if ar = [] then [] else [_joinDash ar]))) := by
  refine ⟨getPortWith_stage_ok t shuffle env u hD,
    getPortWith_exhausted t shuffle env u hD, ?_⟩
  intro port pr ar
  cases pr with
  | nil =>
    cases ar with
    | nil => simp [triedRangesList, _joinDash]
    | cons a2 r2 =>
      simp [triedRangesList, _joinDash, _joinDash_ne_empty a2 r2]
  | cons a1 r1 =>
    cases ar with
    | nil =>
      simp [triedRangesList, _joinDash, _joinDash_ne_empty a1 r1]
    | cons a2 r2 =>
      simp [triedRangesList, _joinDash_ne_empty a1 r1, _joinDash_ne_empty a2 r2]

/-- Witness for C7 (amended): `{port: 4000, random: false}` on an all-failing
probe throws the enumerating tried-ranges error (here `tried 4000`, the pinned
port making both ranges empty). -/
theorem exhausted_error_spec_witness :
    getPortWith probeFail id {}
        ({ port := some 4000, random := some false } : GetPortOptionsIn) =
      .error (exhaustedMsg
        (resolvedHost {} ({ port := some 4000, random := some false } : GetPortOptionsIn))
        (resolvedPort {} ({ port := some 4000, random := some false } : GetPortOptionsIn))
        []
        (resolvedAltRange ({ port := some 4000, random := some false } : GetPortOptionsIn))) :=
  (exhausted_error_spec probeFail id {}
    ({ port := some 4000, random := some false } : GetPortOptionsIn)
    (by decide)).2.1 (by decide) rfl

/-- Counterexample for C7 as stated: with default options (`random` never
set, hence not explicitly `false`) and every stage failing, `getPort` throws
`getRandomPort`'s error, which enumerates none of the attempted items — not
the tried-ranges error listing the resolved port 3000 and the alternative
range 3000-3100. -/
theorem exhausted_error_cx :
    getPort probeFail id {} (.opts ({} : GetPortOptionsIn)) =
      .error "Unable to find any random port on any host" ∧
    "Unable to find any random port on any host" ≠
      exhaustedMsg none 3000 [] [3000, 3100] :=
  ⟨rfl, by decide⟩

/-! ### C9: non-numeric shorthand -/

/-- C9: a bare-string shorthand is parsed with `parseInt`; a non-numeric
string (parse result NaN) is coerced to port 0 by `|| 0`, which in turn makes
the resolved `random` flag true (no range being present either), so the call
resolves through the OS-assigned ephemeral-port path — it becomes exactly a
`getRandomPort` call rather than a failure. -/
theorem shorthand_nan_goes_random (t : Probe) (shuffle : List Nat → List Nat)
    (env : ProcEnv) (s : String) (h : jsParseInt s = none) :
    getPort t shuffle env (.str s) =
      getRandomPort t (resolvedHost env ({ port := some 0 } : GetPortOptionsIn)) := by
  show getPortWith t shuffle env (normalizeInput (.str s)) = _
  have hn : normalizeInput (.str s) = ({ port := some 0 } : GetPortOptionsIn) := by
    simp [normalizeInput, h]
  rw [hn]
  exact getPortWith_direct_eq t shuffle env _
    (by simp [resolvedRandom, resolvedPort, nullishOr])

/-- Witness for C9 at the non-numeric shorthand `"abc"`. -/
theorem shorthand_nan_goes_random_witness :
    getPort probeConst41000 id {} (.str "abc") =
      getRandomPort probeConst41000
        (resolvedHost {} ({ port := some 0 } : GetPortOptionsIn)) :=
  shorthand_nan_goes_random probeConst41000 id {} "abc" (by decide)

/-! ### C8: returned ports are in [1, 65535] -/

/-- A JS-truthy `PortNumber | false` value is a `some` of a nonzero port. -/
theorem truthy_eq_true_iff (o : Option Nat) :
    truthy o = true ↔ ∃ q, o = some q ∧ q ≠ 0 := by
  cases o with
  | none => simp [truthy]
  | some a => simp [truthy]

/-- Under the SocketProbe contract (a successful bind reports a concrete port
in [1, 65535], and binding a fixed nonzero port binds that very port), a
successful per-host loop over a nonempty host list yields a port in
[1, 65535]. -/
theorem checkPortLoop_bounds (t : Probe)
    (ht : ∀ p h q, t p h = some q → (1 ≤ q ∧ q ≤ 65535) ∧ (p ≠ 0 → q = p))
    (p : Nat) (h : Host) (hs : List Host) (q : Nat)
    (hloop : checkPortLoop t p (h :: hs) = some q) : 1 ≤ q ∧ q ≤ 65535 := by
  by_cases hp : p = 0
  · subst hp
    cases ht0 : t 0 h with
    | none => simp [checkPortLoop, ht0] at hloop
    | some q1 =>
      have hb1 := (ht 0 h q1 ht0).1
      have hq1 : q1 ≠ 0 := by omega
      have hbne : (q1 != 0) = true := by simpa using hq1
      simp only [checkPortLoop, ht0, hbne, beq_self_eq_true,
        Bool.true_and, if_true] at hloop
      have := checkPortLoop_ne_zero t q1 hq1 hs q hloop
      omega
  · cases ht0 : t p h with
    | none => simp [checkPortLoop, ht0] at hloop
    | some q1 =>
      have hb1 := ht p h q1 ht0
      have hq1p : q1 = p := hb1.2 hp
      have hbp : (p == 0) = false := by simpa using hp
      simp only [checkPortLoop, ht0, hbp, Bool.false_and, if_neg] at hloop
      have := checkPortLoop_ne_zero t p hp hs q (by simpa using hloop)
      omega

/-- Under the SocketProbe contract, any successful `checkPort` on the host
argument shapes reachable from `getPort` yields a port in [1, 65535]. -/
theorem checkPort_bounds (t : Probe)
    (ht : ∀ p h q, t p h = some q → (1 ≤ q ∧ q ≤ 65535) ∧ (p ≠ 0 → q = p))
    (p : Nat) (host : Host) (q : Nat)
    (hc : checkPort t p (hostInputOf host) = some q) : 1 ≤ q ∧ q ≤ 65535 := by
  cases host with
  | none =>
    exact checkPortLoop_bounds t ht p none [some "0.0.0.0"] q hc
  | some h =>
    by_cases he : h = ""
    · subst he
      simp only [hostInputOf, checkPort, if_pos] at hc
      exact checkPortLoop_bounds t ht p none [some "0.0.0.0"] q hc
    · have hbe : (h == "") = false := by simpa using he
      simp only [hostInputOf, checkPort, hbe, Bool.false_eq_true, if_false] at hc
      exact (ht p (some h) q hc).1

/-- Under the SocketProbe contract, a successful `_findPort` yields a port in
[1, 65535]. -/
theorem _findPort_bounds (t : Probe)
    (ht : ∀ p h q, t p h = some q → (1 ≤ q ∧ q ≤ 65535) ∧ (p ≠ 0 → q = p)) :
    ∀ (ports : List Nat) (host : Host) (q : Nat),
      _findPort t ports host = some q → 1 ≤ q ∧ q ≤ 65535 := by
  intro ports
  induction ports with
  | nil => intro host q h; simp [_findPort] at h
  | cons p rest ih =>
    intro host q h
    cases hc : checkPort t p (hostInputOf host) with
    | none =>
      simp only [_findPort, hc] at h
      exact ih host q h
    | some q1 =>
      by_cases hq1 : q1 = 0
      · subst hq1
        simp only [_findPort, hc, bne_self_eq_false, if_neg,
          Bool.false_eq_true, not_false_eq_true] at h
        exact ih host q (by simpa using h)
      · have hb : (q1 != 0) = true := by simpa using hq1
        simp only [_findPort, hc, hb, if_true] at h
        cases h
        exact checkPort_bounds t ht p host q hc

/-- Under the SocketProbe contract, `getRandomPort` only ever resolves a port
in [1, 65535]. -/
theorem getRandomPort_bounds (t : Probe)
    (ht : ∀ p h q, t p h = some q → (1 ≤ q ∧ q ≤ 65535) ∧ (p ≠ 0 → q = p))
    (host : Host) (q : Nat) (h : getRandomPort t host = .ok q) :
    1 ≤ q ∧ q ≤ 65535 := by
  cases hc : checkPort t 0 (hostInputOf host) with
  | none => simp [getRandomPort, hc] at h
  | some q1 =>
    simp only [getRandomPort, hc, Except.ok.injEq] at h
    cases h
    exact checkPort_bounds t ht 0 host q hc

/-- Under the SocketProbe contract, a successful candidate stage yields a port
in [1, 65535]. -/
theorem availAfterAlt_bounds (t : Probe)
    (ht : ∀ p h q, t p h = some q → (1 ≤ q ∧ q ≤ 65535) ∧ (p ≠ 0 → q = p))
    (shuffle : List Nat → List Nat) (env : ProcEnv) (u : GetPortOptionsIn)
    (q : Nat) (h : availAfterAlt t shuffle env u = some q) :
    1 ≤ q ∧ q ≤ 65535 := by
  rw [availAfterAlt] at h
  split at h
  · exact _findPort_bounds t ht _ _ q h
  · exact _findPort_bounds t ht _ _ q h

/-- C8: under the SocketProbe contract (spec §2/§3: a successful bind reports
the concrete bound port, which lies in [1, 65535], and binding a fixed
nonzero port binds exactly that port), every port `getPort` or
`getRandomPort` returns (rather than throws) lies in [1, 65535] — the
sentinel 0 is always resolved to an actual OS-assigned port first, and
neither function ever hands the caller 0 or `false`. -/
theorem returned_ports_in_range (t : Probe)
    (ht : ∀ p h q, t p h = some q → (1 ≤ q ∧ q ≤ 65535) ∧ (p ≠ 0 → q = p)) :
    (∀ (shuffle : List Nat → List Nat) (env : ProcEnv) (input : GetPortInput)
      (q : Nat), getPort t shuffle env input = .ok q → 1 ≤ q ∧ q ≤ 65535) ∧
    (∀ (host : Host) (q : Nat), getRandomPort t host = .ok q →
      1 ≤ q ∧ q ≤ 65535) := by
  constructor
  · intro shuffle env input q hq
    rw [getPort] at hq
    generalize normalizeInput input = u at hq
    simp only [getPortWith] at hq
    split at hq
    · exact getRandomPort_bounds t ht _ q hq
    · split at hq
      · rename_i hA
        obtain ⟨q1, he, hq1⟩ := (truthy_eq_true_iff _).mp hA
        rw [he] at hq
        simp only [Option.getD_some, Except.ok.injEq] at hq
        cases hq
        exact availAfterAlt_bounds t ht shuffle env u q he
      · split at hq
        · cases hg : getRandomPort t (resolvedHost env u) with
          | error e => rw [hg] at hq; simp [Except.bind] at hq
          | ok p =>
            rw [hg] at hq
            simp only [Except.bind] at hq
            split at hq
            · simp only [Except.ok.injEq] at hq
              cases hq
              exact getRandomPort_bounds t ht _ q hg
            · simp at hq
        · simp at hq
  · intro host q h
    exact getRandomPort_bounds t ht host q h

/-- Witness for C8: the well-behaved probe `probeSane` satisfies the contract,
and the default `getPort` call returns 3000 ∈ [1, 65535]. -/
theorem returned_ports_in_range_witness :
    getPort probeSane id {} (.opts ({} : GetPortOptionsIn)) = .ok 3000 ∧
    (1 ≤ 3000 ∧ 3000 ≤ 65535) := by
  have ht : ∀ p h q, probeSane p h = some q →
      (1 ≤ q ∧ q ≤ 65535) ∧ (p ≠ 0 → q = p) := by
    intro p h q hq
    by_cases hp : p = 0
    · subst hp
      simp only [probeSane, if_pos, beq_self_eq_true, Option.some.injEq] at hq
      cases hq
      exact ⟨by omega, fun hcon => absurd rfl hcon⟩
    · have hb : (p == 0) = false := by simpa using hp
      simp only [probeSane, hb, Bool.false_eq_true, if_false] at hq
      by_cases hle : p ≤ 65535
      · rw [if_pos hle] at hq
        simp only [Option.some.injEq] at hq
        cases hq
        exact ⟨⟨by omega, hle⟩, fun _ => rfl⟩
      · rw [if_neg hle] at hq
        exact absurd hq (by simp)
  exact ⟨rfl, (returned_ports_in_range probeSane ht).1 id {}
    (.opts ({} : GetPortOptionsIn)) 3000 rfl⟩
